import Mathlib

/-!
# Verification of the buyer-lead intake core

Shallow embedding of the validation/normalization schema
(`src/lib/validations.ts`: `buyerSchema`, `csvBuyerSchema`), the CSV
import/export component (`BuyerImportExport.tsx`), the create/edit
persistence mappings (`NewBuyer`/`EditBuyer` submit handlers) and the
history trigger (`track_buyer_changes` in the SQL migration).

Machine-level JavaScript behaviours that the code relies on are embedded
explicitly: truthiness of numbers/strings/arrays, `String.prototype.split`
/ `join` / `trim`, `parseInt` on all-digit strings, and the zod parse
pipeline (field issues are collected for every field; object-level
refinements run unless a field failed with an aborting error such as an
invalid enum member or a missing required field).
-/

namespace ESahayak

/-- A zod validation issue: path of the offending field plus a message. -/
structure Issue where
  path : List String
  message : String
deriving DecidableEq

/-! ## Closed enums (`citySchema`, ..., `statusSchema` and the SQL enum types) -/

inductive City | chandigarh | mohali | zirakpur | panchkula | other
deriving DecidableEq

inductive PropertyType | apartment | villa | plot | office | retail
deriving DecidableEq

inductive BHK | one | two | three | four | studio
deriving DecidableEq

inductive Purpose | buy | rent
deriving DecidableEq

inductive Timeline | zeroToThree | threeToSix | moreThanSix | exploring
deriving DecidableEq

inductive Source | website | referral | walkIn | call | other
deriving DecidableEq

inductive Status | new | qualified | contacted | visited | negotiation | converted | dropped
deriving DecidableEq

def City.toCell : City → String
  | .chandigarh => "Chandigarh" | .mohali => "Mohali" | .zirakpur => "Zirakpur"
  | .panchkula => "Panchkula" | .other => "Other"

def City.fromCell : String → Option City
  | "Chandigarh" => some .chandigarh | "Mohali" => some .mohali
  | "Zirakpur" => some .zirakpur | "Panchkula" => some .panchkula
  | "Other" => some .other | _ => none

def PropertyType.toCell : PropertyType → String
  | .apartment => "Apartment" | .villa => "Villa" | .plot => "Plot"
  | .office => "Office" | .retail => "Retail"

def PropertyType.fromCell : String → Option PropertyType
  | "Apartment" => some .apartment | "Villa" => some .villa | "Plot" => some .plot
  | "Office" => some .office | "Retail" => some .retail | _ => none

def BHK.toCell : BHK → String
  | .one => "1" | .two => "2" | .three => "3" | .four => "4" | .studio => "Studio"

def BHK.fromCell : String → Option BHK
  | "1" => some .one | "2" => some .two | "3" => some .three
  | "4" => some .four | "Studio" => some .studio | _ => none

def Purpose.toCell : Purpose → String
  | .buy => "Buy" | .rent => "Rent"

def Purpose.fromCell : String → Option Purpose
  | "Buy" => some .buy | "Rent" => some .rent | _ => none

def Timeline.toCell : Timeline → String
  | .zeroToThree => "0-3m" | .threeToSix => "3-6m"
  | .moreThanSix => ">6m" | .exploring => "Exploring"

def Timeline.fromCell : String → Option Timeline
  | "0-3m" => some .zeroToThree | "3-6m" => some .threeToSix
  | ">6m" => some .moreThanSix | "Exploring" => some .exploring | _ => none

def Source.toCell : Source → String
  | .website => "Website" | .referral => "Referral" | .walkIn => "Walk-in"
  | .call => "Call" | .other => "Other"

def Source.fromCell : String → Option Source
  | "Website" => some .website | "Referral" => some .referral
  | "Walk-in" => some .walkIn | "Call" => some .call | "Other" => some .other
  | _ => none

def Status.toCell : Status → String
  | .new => "New" | .qualified => "Qualified" | .contacted => "Contacted"
  | .visited => "Visited" | .negotiation => "Negotiation"
  | .converted => "Converted" | .dropped => "Dropped"

def Status.fromCell : String → Option Status
  | "New" => some .new | "Qualified" => some .qualified | "Contacted" => some .contacted
  | "Visited" => some .visited | "Negotiation" => some .negotiation
  | "Converted" => some .converted | "Dropped" => some .dropped | _ => none

/-! ## JavaScript string primitives used by the schemas -/

/-- JS `s.split(sep)` for a one-character separator: `List.splitOn` on
the characters has exactly the JS semantics (`"".split(sep)` is `[""]`,
and the result is never the empty list). -/
def jsSplit (sep : Char) (s : String) : List String :=
  (s.toList.splitOn sep).map (fun l => String.mk l)

/-- JS `array.join(sep)` for a one-character separator. -/
def jsJoin (sep : Char) (ts : List String) : String :=
  String.mk ([sep].intercalate (ts.map String.toList))

/-- JS `String.prototype.trim`: drop leading and trailing whitespace. -/
def jsTrim (s : String) : String :=
  String.mk (((s.toList.dropWhile Char.isWhitespace).reverse.dropWhile
    Char.isWhitespace).reverse)

/-- The `^\d{10,15}$` phone pattern of both schemas. -/
def phonePat (s : String) : Bool :=
  s.toList.all Char.isDigit && decide (10 ≤ s.length) && decide (s.length ≤ 15)

/-- The `^\d*$` pattern guarding the CSV budget columns. -/
def allDigits (s : String) : Bool := s.toList.all Char.isDigit

/-- Decimal digits of a natural number, most significant first — the JS
string rendering of a non-negative integer (`String(n)` / template
interpolation), as used when a numeric column is written to a CSV cell. -/
def natDigits (n : Nat) : List Char :=
  if _h : n < 10 then [Nat.digitChar n]
  else natDigits (n / 10) ++ [Nat.digitChar (n % 10)]
decreasing_by
  exact Nat.div_lt_self (by omega) (by omega)

/-- JS `parseInt` restricted to all-digit strings (the only shape the CSV
schema lets through), at the character-list level. -/
def parseDigits (l : List Char) : Nat :=
  l.foldl (fun a c => a * 10 + (c.toNat - 48)) 0

/-- JS rendering of an integer as a string. -/
def intToCell (v : Int) : String :=
  if v < 0 then String.mk ('-' :: natDigits (-v).toNat)
  else String.mk (natDigits v.toNat)

/-- The zod v3 `.email()` pattern: local part drawn from
`[A-Za-z0-9_'+\-.]`, not starting with a dot, not containing `..`, ending
in a non-dot character; then `@`; then one or more labels each starting
with an alphanumeric and continuing with alphanumerics or hyphens,
separated by dots, the final label being at least two letters. -/
def isLocalChar (c : Char) : Bool :=
  c.isAlphanum || c = '_' || c = '\'' || c = '+' || c = '-' || c = '.'

def isLabelChar (c : Char) : Bool := c.isAlphanum || c = '-'

def noDoubleDot : List Char → Bool
  | [] => true
  | [_] => true
  | a :: b :: rest => !(a = '.' && b = '.') && noDoubleDot (b :: rest)

def localPartOk (l : List Char) : Bool :=
  match l with
  | [] => false
  | first :: _ =>
    l.all isLocalChar && first ≠ '.' && noDoubleDot l &&
      (match l.getLast? with | some last => last ≠ '.' | none => false)

def labelOk (l : List Char) : Bool :=
  match l with
  | [] => false
  | first :: rest => first.isAlphanum && rest.all isLabelChar

def domainOk (l : List Char) : Bool :=
  match (l.splitOn '.').reverse with
  | [] => false
  | tld :: labels =>
    decide (2 ≤ tld.length) && tld.all Char.isAlpha &&
      !labels.isEmpty && labels.all labelOk

def isValidEmail (s : String) : Bool :=
  match s.toList.splitOn '@' with
  | [localPart, domain] => localPartOk localPart && domainOk domain
  | _ => false

/-! ## Form-mode schema (`buyerSchema`)

In form mode the candidate arrives from the typed form state: enum fields
are already members of their closed sets, optional fields may be absent,
and the optional email/notes strings may be the empty string (accepted by
the `.or(z.literal(""))` branch of the schema).  With this input shape no
field can fail with an aborting zod issue (aborts come only from invalid
enum members or missing required fields), so both `.refine` effects always
execute. -/

structure FormCandidate where
  fullName : String
  email : Option String
  phone : String
  city : City
  propertyType : PropertyType
  bhk : Option BHK
  purpose : Purpose
  budgetMin : Option Int
  budgetMax : Option Int
  timeline : Timeline
  source : Source
  status : Option Status
  notes : Option String
  tags : Option (List String)
deriving DecidableEq

/-- The normalized record produced by a successful `buyerSchema.parse`. -/
structure Buyer where
  fullName : String
  email : Option String
  phone : String
  city : City
  propertyType : PropertyType
  bhk : Option BHK
  purpose : Purpose
  budgetMin : Option Int
  budgetMax : Option Int
  timeline : Timeline
  source : Source
  status : Status
  notes : Option String
  tags : List String
deriving DecidableEq

/-- `z.string().min(2, ...).max(80, ...)` — both checks run and each failing
check contributes its own issue. -/
def formFullNameIssues (s : String) : List Issue :=
  (if s.length < 2 then [⟨["fullName"], "Name must be at least 2 characters"⟩] else []) ++
    (if 80 < s.length then [⟨["fullName"], "Name must be at most 80 characters"⟩] else [])

/-- `z.string().email(...).optional().or(z.literal(""))` — absent and `""`
are accepted; any other string must match the email pattern. -/
def formEmailIssues : Option String → List Issue
  | none => []
  | some e =>
    if e = "" then []
    else if isValidEmail e then [] else [⟨["email"], "Invalid email format"⟩]

/-- `z.string().regex(/^\d{10,15}$/, ...)`. -/
def formPhoneIssues (s : String) : List Issue :=
  if phonePat s then [] else [⟨["phone"], "Phone must be 10-15 digits"⟩]

/-- `z.number().min(0, "Budget must be positive").optional()` for either
budget column; `path` names the offending field. -/
def formBudgetIssues (field : String) : Option Int → List Issue
  | none => []
  | some v => if v < 0 then [⟨[field], "Budget must be positive"⟩] else []

/-- `z.string().max(1000, ...).optional().or(z.literal(""))` — the empty
string is within the length bound, so only overlong notes fail. -/
def formNotesIssues : Option String → List Issue
  | none => []
  | some n =>
    if 1000 < n.length then [⟨["notes"], "Notes must be at most 1000 characters"⟩] else []

/-- JS truthiness of an optional number (`undefined` and `0` are falsy). -/
def optIntTruthy : Option Int → Bool
  | none => false
  | some v => v ≠ 0

/-- First `.refine`: BHK required for Apartment/Villa (`!data.bhk` — an
absent optional enum is the only falsy case in form mode). -/
def formBhkRefineFails (c : FormCandidate) : Bool :=
  (c.propertyType = .apartment || c.propertyType = .villa) && c.bhk.isNone

/-- Second `.refine`: `data.budgetMin && data.budgetMax && data.budgetMax <
data.budgetMin` — JS truthiness skips the comparison when either budget is
absent or zero. -/
def formBudgetRefineFails (bmin bmax : Option Int) : Bool :=
  optIntTruthy bmin && optIntTruthy bmax && decide (bmax.getD 0 < bmin.getD 0)

/-- The issue of the first `.refine` of `buyerSchema`, with its custom
`path` and message. -/
def bhkRefineIssue : Issue := ⟨["bhk"], "BHK is required for Apartments and Villas"⟩

/-- The issue of the second `.refine` of `buyerSchema`, attributed to
`budgetMax` by its custom `path`. -/
def budgetRefineIssue : Issue :=
  ⟨["budgetMax"], "Maximum budget must be greater than or equal to minimum budget"⟩

/-- All issues of `buyerSchema.parse`: the object collects every field's
issues in shape order (typed enum fields cannot fail here), then the two
refinements append theirs.  No field aborts in form mode, so the
refinements always run. -/
def formIssues (c : FormCandidate) : List Issue :=
  formFullNameIssues c.fullName ++ formEmailIssues c.email ++ formPhoneIssues c.phone ++
    formBudgetIssues "budgetMin" c.budgetMin ++ formBudgetIssues "budgetMax" c.budgetMax ++
    formNotesIssues c.notes ++
    (if formBhkRefineFails c then [bhkRefineIssue] else []) ++
    (if formBudgetRefineFails c.budgetMin c.budgetMax then [budgetRefineIssue] else [])

/-- The record built on success: `status` defaults to `New`, `tags`
defaults to `[]`; every other field keeps its input value. -/
def formBuild (c : FormCandidate) : Buyer :=
  ⟨c.fullName, c.email, c.phone, c.city, c.propertyType, c.bhk, c.purpose,
    c.budgetMin, c.budgetMax, c.timeline, c.source, c.status.getD .new,
    c.notes, c.tags.getD []⟩

/-- `buyerSchema.parse`: the normalized record, or every collected issue. -/
def validateForm (c : FormCandidate) : Except (List Issue) Buyer :=
  if formIssues c = [] then .ok (formBuild c) else .error (formIssues c)

/-! ## CSV-mode schema (`csvBuyerSchema`)

A parsed CSV row (papaparse with `header: true`) maps every present column
to a string — an empty cell is the empty string — and a column missing
from the file to `undefined` (`none` here).

zod parse statuses per field: a failed string check (length, regex,
email) marks the parse *dirty*; an invalid enum member, a failed union
with no dirty branch, or a missing required field *aborts* it.  All field
issues are collected either way, but the two `.refine` effects only run
when no field aborted. -/

structure CsvRow where
  fullName : Option String
  email : Option String
  phone : Option String
  city : Option String
  propertyType : Option String
  bhk : Option String
  purpose : Option String
  budgetMin : Option String
  budgetMax : Option String
  timeline : Option String
  source : Option String
  notes : Option String
  tags : Option String
  status : Option String
deriving DecidableEq

/-- Value of a CSV budget column after
`z.string().regex(/^\d*$/).transform(v => v === "" ? undefined : parseInt(v)).optional()`:
absent/empty becomes `undefined`; an all-digit cell becomes its number; a
cell failing the regex keeps its raw string (zod skips the transform on a
dirty parse), which is what the refinement then sees. -/
inductive CsvNum
  | undef
  | num (n : Int)
  | raw (s : String)
deriving DecidableEq

/-- Value of the CSV `bhk` column after `bhkSchema.optional().or(z.literal(""))`. -/
inductive BhkCell
  | absent
  | empty
  | val (b : BHK)
deriving DecidableEq

def csvFullNameIssues : Option String → List Issue
  | none => [⟨["fullName"], "Required"⟩]
  | some s =>
    (if s.length < 2 then [⟨["fullName"], "String must contain at least 2 character(s)"⟩] else []) ++
      (if 80 < s.length then [⟨["fullName"], "String must contain at most 80 character(s)"⟩] else [])

def csvEmailIssues : Option String → List Issue
  | none => []
  | some e =>
    if e = "" then []
    else if isValidEmail e then [] else [⟨["email"], "Invalid email"⟩]

def csvPhoneIssues : Option String → List Issue
  | none => [⟨["phone"], "Required"⟩]
  | some s => if phonePat s then [] else [⟨["phone"], "Invalid"⟩]

/-- Issues of a required enum column: missing and non-member cells both
abort with a single issue on the field. -/
def csvEnumIssues (field : String) (fromCell : String → Option α) : Option String → List Issue
  | none => [⟨[field], "Required"⟩]
  | some s =>
    if (fromCell s).isSome then [] else [⟨[field], "Invalid enum value"⟩]

/-- `bhkSchema.optional().or(z.literal(""))`: absent, empty and valid
members pass; anything else fails the whole union. -/
def csvBhkIssues : Option String → List Issue
  | none => []
  | some s =>
    if s = "" then []
    else if (BHK.fromCell s).isSome then [] else [⟨["bhk"], "Invalid input"⟩]

def csvBudgetIssues (field : String) : Option String → List Issue
  | none => []
  | some s => if allDigits s then [] else [⟨[field], "Invalid"⟩]

def csvNotesIssues : Option String → List Issue
  | none => []
  | some n =>
    if 1000 < n.length then [⟨["notes"], "String must contain at most 1000 character(s)"⟩] else []

/-- `statusSchema.optional().default("New")`: only a present non-member
cell fails — the empty string is not a member, so it aborts. -/
def csvStatusIssues : Option String → List Issue
  | none => []
  | some s => if (Status.fromCell s).isSome then [] else [⟨["status"], "Invalid enum value"⟩]

def csvBudgetValue : Option String → CsvNum
  | none => .undef
  | some s =>
    if allDigits s then (if s = "" then .undef else .num (Int.ofNat (parseDigits s.toList)))
    else .raw s

def csvBhkValue : Option String → BhkCell
  | none => .absent
  | some s =>
    if s = "" then .empty
    else match BHK.fromCell s with
      | some b => .val b
      | none => .absent

def csvTagsValue : Option String → Option (List String)
  | none => none
  | some s => some (if s = "" then [] else (jsSplit ',' s).map jsTrim)

def csvStatusValue : Option String → Status
  | none => .new
  | some s => (Status.fromCell s).getD .new

/-- Does some field of the row abort its parse?  Exactly the required
fields when missing, the enum columns on non-members, the `bhk` union on
an invalid non-empty cell, and `status` on a present non-member. -/
def csvAborts (r : CsvRow) : Bool :=
  r.fullName.isNone || r.phone.isNone ||
    !(csvEnumIssues "city" City.fromCell r.city).isEmpty ||
    !(csvEnumIssues "propertyType" PropertyType.fromCell r.propertyType).isEmpty ||
    !(csvEnumIssues "purpose" Purpose.fromCell r.purpose).isEmpty ||
    !(csvEnumIssues "timeline" Timeline.fromCell r.timeline).isEmpty ||
    !(csvEnumIssues "source" Source.fromCell r.source).isEmpty ||
    !(csvBhkIssues r.bhk).isEmpty || !(csvStatusIssues r.status).isEmpty

/-- JS truthiness of the parsed `bhk` union value (`undefined` and `""`
are falsy, every enum member string is truthy). -/
def bhkCellTruthy : BhkCell → Bool
  | .absent => false
  | .empty => false
  | .val _ => true

/-- JS truthiness of a parsed budget value. -/
def csvNumTruthy : CsvNum → Bool
  | .undef => false
  | .num n => n ≠ 0
  | .raw s => s ≠ ""

/-- JS `<` on the parsed budget values: number–number compares
numerically, string–string lexicographically; comparisons involving
`undefined` are false, and a raw (regex-failing, hence non-numeric) cell
against a number coerces to NaN, also false. -/
def jsLtCsv : CsvNum → CsvNum → Bool
  | .num a, .num b => a < b
  | .raw a, .raw b => a < b
  | _, _ => false

def csvPtValue : Option String → PropertyType
  | none => .plot
  | some s => (PropertyType.fromCell s).getD .plot

/-- First CSV `.refine` (no `path`, no custom message). -/
def csvBhkRefineFails (r : CsvRow) : Bool :=
  (csvPtValue r.propertyType = .apartment || csvPtValue r.propertyType = .villa) &&
    !bhkCellTruthy (csvBhkValue r.bhk)

/-- Second CSV `.refine` (no `path`, no custom message). -/
def csvBudgetRefineFails (r : CsvRow) : Bool :=
  csvNumTruthy (csvBudgetValue r.budgetMin) && csvNumTruthy (csvBudgetValue r.budgetMax) &&
    jsLtCsv (csvBudgetValue r.budgetMax) (csvBudgetValue r.budgetMin)

/-- All issues of `csvBuyerSchema.parse`: field issues in shape order
(`tags` never fails — its transform accepts any string), then, when no
field aborted, the two pathless refinement issues. -/
def csvIssues (r : CsvRow) : List Issue :=
  csvFullNameIssues r.fullName ++ csvEmailIssues r.email ++ csvPhoneIssues r.phone ++
    csvEnumIssues "city" City.fromCell r.city ++
    csvEnumIssues "propertyType" PropertyType.fromCell r.propertyType ++
    csvBhkIssues r.bhk ++
    csvEnumIssues "purpose" Purpose.fromCell r.purpose ++
    csvBudgetIssues "budgetMin" r.budgetMin ++ csvBudgetIssues "budgetMax" r.budgetMax ++
    csvEnumIssues "timeline" Timeline.fromCell r.timeline ++
    csvEnumIssues "source" Source.fromCell r.source ++
    csvNotesIssues r.notes ++ csvStatusIssues r.status ++
    (if csvAborts r then []
      else (if csvBhkRefineFails r then [⟨[], "Invalid input"⟩] else []) ++
        (if csvBudgetRefineFails r then [⟨[], "Invalid input"⟩] else []))

/-- The normalized record produced by a successful `csvBuyerSchema.parse`. -/
structure CsvBuyer where
  fullName : String
  email : Option String
  phone : String
  city : City
  propertyType : PropertyType
  bhk : BhkCell
  purpose : Purpose
  budgetMin : Option Int
  budgetMax : Option Int
  timeline : Timeline
  source : Source
  notes : Option String
  tags : Option (List String)
  status : Status
deriving DecidableEq

def csvNumToOptInt : CsvNum → Option Int
  | .num n => some n
  | _ => none

/-- The record built on a success (each value function is consulted only
when its field produced no issue, so the fallback branches are inert). -/
def csvBuild (r : CsvRow) : CsvBuyer :=
  ⟨r.fullName.getD "", r.email, r.phone.getD "",
    (City.fromCell (r.city.getD "")).getD .other,
    csvPtValue r.propertyType, csvBhkValue r.bhk,
    (Purpose.fromCell (r.purpose.getD "")).getD .buy,
    csvNumToOptInt (csvBudgetValue r.budgetMin), csvNumToOptInt (csvBudgetValue r.budgetMax),
    (Timeline.fromCell (r.timeline.getD "")).getD .exploring,
    (Source.fromCell (r.source.getD "")).getD .other,
    r.notes, csvTagsValue r.tags, csvStatusValue r.status⟩

/-- `csvBuyerSchema.parse` on one row. -/
def csvParse (r : CsvRow) : Except (List Issue) CsvBuyer :=
  if csvIssues r = [] then .ok (csvBuild r) else .error (csvIssues r)

/-! ## Persistence mappings, export, import pipeline, history trigger -/

/-- JS `x || null` on an optional string: `undefined` and `""` become null. -/
def jsOrNullStr : Option String → Option String
  | none => none
  | some s => if s = "" then none else some s

/-- JS `x || null` on an optional number: `undefined` and `0` become null. -/
def jsOrNullInt : Option Int → Option Int
  | none => none
  | some v => if v = 0 then none else some v

/-- The content columns written to the `buyers` table (everything except
id, owner and timestamps). -/
structure DbWrite where
  full_name : String
  email : Option String
  phone : String
  city : City
  property_type : PropertyType
  bhk : Option BHK
  purpose : Purpose
  budget_min : Option Int
  budget_max : Option Int
  timeline : Timeline
  source : Source
  status : Status
  notes : Option String
  tags : List String
deriving DecidableEq

/-- Column payload of the `NewBuyer` submit handler's `insert` call
(`Buyers.tsx` page file): `email`, `bhk`, `budget_min`, `budget_max` and
`notes` go through `|| null`; `tags || []` is the identity because a
validated `tags` is already an array (and arrays are truthy in JS). -/
def newBuyerDbWrite (d : Buyer) : DbWrite :=
  ⟨d.fullName, jsOrNullStr d.email, d.phone, d.city, d.propertyType, d.bhk,
    d.purpose, jsOrNullInt d.budgetMin, jsOrNullInt d.budgetMax, d.timeline,
    d.source, d.status, jsOrNullStr d.notes, d.tags⟩

/-- Column payload of the `EditBuyer` submit handler's `update` call —
the same field-by-field mapping as the create path. -/
def editBuyerDbWrite (d : Buyer) : DbWrite :=
  ⟨d.fullName, jsOrNullStr d.email, d.phone, d.city, d.propertyType, d.bhk,
    d.purpose, jsOrNullInt d.budgetMin, jsOrNullInt d.budgetMax, d.timeline,
    d.source, d.status, jsOrNullStr d.notes, d.tags⟩

/-- JS `x || null` on the parsed CSV `bhk` union value. -/
def bhkCellOrNull : BhkCell → Option BHK
  | .absent => none
  | .empty => none
  | .val b => some b

/-- `dbRows` mapping of `validateAndImportData` (`BuyerImportExport.tsx`):
`row.status || 'New'` is the identity on a parsed status (enum member
strings are non-empty hence truthy), and `row.tags || []` replaces an
absent tags value by the empty array. -/
def csvDbWrite (b : CsvBuyer) : DbWrite :=
  ⟨b.fullName, jsOrNullStr b.email, b.phone, b.city, b.propertyType,
    bhkCellOrNull b.bhk, b.purpose, jsOrNullInt b.budgetMin, jsOrNullInt b.budgetMax,
    b.timeline, b.source, b.status, jsOrNullStr b.notes, b.tags.getD []⟩

/-- A stored row of the `buyers` table. -/
structure DbLead where
  id : String
  full_name : String
  email : Option String
  phone : String
  city : City
  property_type : PropertyType
  bhk : Option BHK
  purpose : Purpose
  budget_min : Option Int
  budget_max : Option Int
  timeline : Timeline
  source : Source
  status : Status
  notes : Option String
  tags : Option (List String)
  owner_id : String
  updated_at : String
  created_at : String
deriving DecidableEq

/-- Applying an UPDATE of the content columns to a stored row; the
`update_updated_at_column` trigger stamps `updated_at` with `now()`. -/
def applyWrite (r : DbLead) (w : DbWrite) (now : String) : DbLead :=
  { r with
    full_name := w.full_name, email := w.email, phone := w.phone,
    city := w.city, property_type := w.property_type, bhk := w.bhk,
    purpose := w.purpose, budget_min := w.budget_min, budget_max := w.budget_max,
    timeline := w.timeline, source := w.source, status := w.status,
    notes := w.notes, tags := some w.tags, updated_at := now }

/-- The `EditBuyer` submit handler: `supabase.from('buyers').update({...})
.eq('id', buyer.id)` — the write is filtered by `id` alone; the
`updatedAt` the editor loaded into `initialData` is never consulted. -/
def editBuyerUpdate (store : List DbLead) (targetId : String) (d : Buyer) (now : String) :
    List DbLead :=
  store.map fun r => if r.id = targetId then applyWrite r (editBuyerDbWrite d) now else r

/-- The `csvRows` transform of `exportData`: every cell is the stored
value rendered as a string, with `|| ''` collapsing null — and for the
numeric budget columns also `0` — to the empty cell, and `tags` joined
with `,`. -/
def exportRow (r : DbLead) : CsvRow :=
  ⟨some r.full_name,
    some (match r.email with | none => "" | some e => e),
    some r.phone,
    some r.city.toCell,
    some r.property_type.toCell,
    some (match r.bhk with | none => "" | some b => b.toCell),
    some r.purpose.toCell,
    some (match r.budget_min with | none => "" | some v => if v = 0 then "" else intToCell v),
    some (match r.budget_max with | none => "" | some v => if v = 0 then "" else intToCell v),
    some r.timeline.toCell,
    some r.source.toCell,
    some (match r.notes with | none => "" | some n => n),
    some (jsJoin ',' (r.tags.getD [])),
    some r.status.toCell⟩

/-- The stored content columns of a lead, with null tags normalized to
the empty array — the representation against which a re-imported row is
compared. -/
def canonicalOf (r : DbLead) : DbWrite :=
  ⟨r.full_name, r.email, r.phone, r.city, r.property_type, r.bhk, r.purpose,
    r.budget_min, r.budget_max, r.timeline, r.source, r.status, r.notes,
    r.tags.getD []⟩

instance {ε α : Type} [DecidableEq ε] [DecidableEq α] : DecidableEq (Except ε α) := fun x y =>
  match x, y with
  | .error e, .error f =>
    if h : e = f then .isTrue (by rw [h]) else .isFalse (by simp [h])
  | .ok a, .ok b =>
    if h : a = b then .isTrue (by rw [h]) else .isFalse (by simp [h])
  | .error _, .ok _ => .isFalse (by simp)
  | .ok _, .error _ => .isFalse (by simp)

/-- Outcome of handing a parsed CSV file to the import dialog. -/
inductive ImportOutcome
  | rejected
  | processed (perRow : List (Except (List Issue) CsvBuyer))
deriving DecidableEq

/-- `handleFileUpload` followed by the row validation of
`validateAndImportData`: a file with more than 200 data rows is refused
before any row is looked at (`csvData` is never set), otherwise every row
is validated independently. -/
def importPipeline (rows : List CsvRow) : ImportOutcome :=
  if 200 < rows.length then .rejected else .processed (rows.map csvParse)

/-- Old/new value of one column as recorded in the trigger's JSONB diff. -/
inductive FieldVal
  | str : Option String → FieldVal
  | int : Option Int → FieldVal
  | arr : Option (List String) → FieldVal
deriving DecidableEq

/-- One diff entry: column name, old value, new value. -/
abbrev Change := String × FieldVal × FieldVal

/-- A guarded diff entry: emitted only when the column values are
distinct (`IS DISTINCT FROM` is null-safe inequality). -/
def condEntry (cond : Bool) (e : Change) : List Change :=
  if cond then [e] else []

/-- The `track_buyer_changes` trigger function: compares the content
columns of OLD and NEW one by one (enum columns after a text cast) and
concatenates an old/new entry for each differing column.  `id`,
`owner_id`, `created_at` and `updated_at` are not compared. -/
def trackBuyerChanges (o n : DbLead) : List Change :=
  condEntry (o.full_name ≠ n.full_name)
      ("full_name", .str (some o.full_name), .str (some n.full_name)) ++
    condEntry (o.email ≠ n.email) ("email", .str o.email, .str n.email) ++
    condEntry (o.phone ≠ n.phone) ("phone", .str (some o.phone), .str (some n.phone)) ++
    condEntry (o.city ≠ n.city)
      ("city", .str (some o.city.toCell), .str (some n.city.toCell)) ++
    condEntry (o.property_type ≠ n.property_type)
      ("property_type", .str (some o.property_type.toCell), .str (some n.property_type.toCell)) ++
    condEntry (o.bhk ≠ n.bhk)
      ("bhk", .str (o.bhk.map BHK.toCell), .str (n.bhk.map BHK.toCell)) ++
    condEntry (o.purpose ≠ n.purpose)
      ("purpose", .str (some o.purpose.toCell), .str (some n.purpose.toCell)) ++
    condEntry (o.budget_min ≠ n.budget_min) ("budget_min", .int o.budget_min, .int n.budget_min) ++
    condEntry (o.budget_max ≠ n.budget_max) ("budget_max", .int o.budget_max, .int n.budget_max) ++
    condEntry (o.timeline ≠ n.timeline)
      ("timeline", .str (some o.timeline.toCell), .str (some n.timeline.toCell)) ++
    condEntry (o.source ≠ n.source)
      ("source", .str (some o.source.toCell), .str (some n.source.toCell)) ++
    condEntry (o.status ≠ n.status)
      ("status", .str (some o.status.toCell), .str (some n.status.toCell)) ++
    condEntry (o.notes ≠ n.notes) ("notes", .str o.notes, .str n.notes) ++
    condEntry (o.tags ≠ n.tags) ("tags", .arr o.tags, .arr n.tags)

/-- The history row the trigger inserts, if any: `IF changes != '{}'`. -/
def buyerHistoryEntry (o n : DbLead) : Option (String × List Change) :=
  if trackBuyerChanges o n = [] then none else some (n.id, trackBuyerChanges o n)

/-- The mutable columns the history trigger tracks. -/
inductive MutableField
  | fullName | email | phone | city | propertyType | bhk | purpose
  | budgetMin | budgetMax | timeline | source | status | notes | tags
deriving DecidableEq

def MutableField.name : MutableField → String
  | .fullName => "full_name" | .email => "email" | .phone => "phone"
  | .city => "city" | .propertyType => "property_type" | .bhk => "bhk"
  | .purpose => "purpose" | .budgetMin => "budget_min" | .budgetMax => "budget_max"
  | .timeline => "timeline" | .source => "source" | .status => "status"
  | .notes => "notes" | .tags => "tags"

/-- Projection of a stored row to the diff representation of one column. -/
def MutableField.val : MutableField → DbLead → FieldVal
  | .fullName, r => .str (some r.full_name)
  | .email, r => .str r.email
  | .phone, r => .str (some r.phone)
  | .city, r => .str (some r.city.toCell)
  | .propertyType, r => .str (some r.property_type.toCell)
  | .bhk, r => .str (r.bhk.map BHK.toCell)
  | .purpose, r => .str (some r.purpose.toCell)
  | .budgetMin, r => .int r.budget_min
  | .budgetMax, r => .int r.budget_max
  | .timeline, r => .str (some r.timeline.toCell)
  | .source, r => .str (some r.source.toCell)
  | .status, r => .str (some r.status.toCell)
  | .notes, r => .str r.notes
  | .tags, r => .arr r.tags

/-- Invariants every row of the `buyers` table satisfies: the CHECK
constraints of the migration, together with the facts guaranteed by the
application write paths (all of which go through zod validation and the
`|| null` collapsing): a stored email passed the zod email check, and no
stored text field holds the empty string.  Tag well-formedness (trimmed,
non-empty, comma-free) is what the comma-joined CSV tag encoding can
represent faithfully. -/
def wellFormedStoredB (r : DbLead) : Bool :=
  decide (2 ≤ r.full_name.length) && decide (r.full_name.length ≤ 80) &&
    phonePat r.phone &&
    (match r.email with | none => true | some e => !(e = "") && isValidEmail e) &&
    (match r.notes with | none => true | some n => !(n = "") && decide (n.length ≤ 1000)) &&
    (match r.budget_min with | none => true | some v => decide (0 < v)) &&
    (match r.budget_max with | none => true | some v => decide (0 < v)) &&
    (match r.budget_min, r.budget_max with
      | some a, some b => decide (a ≤ b)
      | _, _ => true) &&
    (!(r.property_type = .apartment || r.property_type = .villa) || r.bhk.isSome) &&
    (match r.tags with
      | none => true
      | some ts => ts.all fun t => !(t = "") && decide (',' ∉ t.toList) && jsTrim t = t)

/-! ## Concrete instances used in the theorems below -/

/-- The spec's accept example: a valid Plot candidate. -/
def baseCandidate : FormCandidate :=
  ⟨"Jane Doe", none, "9876543210", .mohali, .plot, none, .buy, none, none,
    .zeroToThree, .referral, none, none, none⟩

/-- The spec's reject example: name "Jo", phone "12345", Apartment
without BHK. -/
def rejectCandidate : FormCandidate :=
  ⟨"Jo", none, "12345", .mohali, .apartment, none, .buy, none, none,
    .zeroToThree, .call, none, none, none⟩

/-- A candidate with both budgets present and `budgetMax = 0 < budgetMin`. -/
def zeroBudgetCandidate : FormCandidate :=
  { baseCandidate with budgetMin := some 5000000, budgetMax := some 0 }

/-- A fully valid CSV row (empty cells for the optional columns). -/
def baseRow : CsvRow :=
  ⟨some "Jane Doe", some "", some "9876543210", some "Mohali", some "Plot",
    some "", some "Buy", some "", some "", some "0-3m", some "Referral",
    some "", some "", some "New"⟩

/-- A CSV row demanding a BHK: Apartment with an empty `bhk` cell. -/
def apartmentNoBhkRow : CsvRow :=
  { baseRow with propertyType := some "Apartment", bhk := some "" }

/-- A CSV row whose `status` cell is the empty string. -/
def emptyStatusRow : CsvRow := { baseRow with status := some "" }

/-- A CSV row with no `status` column at all. -/
def missingStatusRow : CsvRow := { baseRow with status := none }

/-- A CSV row whose `tags` cell is `"urgent, family"`. -/
def taggedRow : CsvRow := { baseRow with tags := some "urgent, family" }

/-- A stored lead whose `budget_min` is the integer 0. -/
def zeroBudgetStored : DbLead :=
  ⟨"lead-1", "Jane Doe", none, "9876543210", .mohali, .plot, none, .buy,
    some 0, none, .zeroToThree, .referral, .new, none, none, "user-1",
    "2025-09-14T10:00:00Z", "2025-09-13T10:00:00Z"⟩

/-- A fully populated, well-formed stored lead. -/
def richStored : DbLead :=
  ⟨"lead-2", "John Doe", some "john@example.com", "9876543210", .chandigarh,
    .apartment, some .two, .buy, some 5000000, some 7000000, .zeroToThree,
    .website, .qualified, some "Looking for 2BHK", some ["urgent", "family"],
    "user-1", "2025-09-14T10:00:00Z", "2025-09-13T10:00:00Z"⟩

/-- `richStored` after only its `updated_at` was refreshed. -/
def richStoredTouched : DbLead :=
  { richStored with updated_at := "2025-09-14T11:00:00Z" }

/-- `richStored` after a rename. -/
def richStoredRenamed : DbLead :=
  { richStored with full_name := "John A. Doe", updated_at := "2025-09-14T11:00:00Z" }

/-- The `updatedAt` a concurrent editor last observed for `richStored` —
older than the stored value. -/
def staleObservedUpdatedAt : String := "2025-09-14T09:00:00Z"

/-- The edit a stale editor submits for `richStored`. -/
def staleEditPayload : Buyer :=
  ⟨"Renamed Lead", some "john@example.com", "9876543210", .chandigarh,
    .apartment, some .two, .buy, some 5000000, some 7000000, .zeroToThree,
    .website, .qualified, some "Looking for 2BHK", ["urgent", "family"]⟩

/-- A validated form record with zero budgets and empty-string email and
notes. -/
def zeroishBuyer : Buyer :=
  ⟨"Jane Doe", some "", "9876543210", .mohali, .plot, none, .buy, some 0,
    some 0, .zeroToThree, .referral, .new, some "", []⟩

/-- A validated CSV record with zero budgets, empty-string email/notes
and an empty `bhk` cell. -/
def zeroishCsvBuyer : CsvBuyer :=
  ⟨"Jane Doe", some "", "9876543210", .mohali, .plot, .empty, .buy, some 0,
    some 0, .zeroToThree, .referral, some "", none, .new⟩

/-! ## Helper lemmas -/

theorem toList_mk (l : List Char) : (String.mk l).toList = l := rfl

theorem mk_toList (s : String) : String.mk s.toList = s := rfl

theorem mk_eq_empty_iff {l : List Char} : String.mk l = "" ↔ l = [] := by
  constructor
  · intro h
    have : (String.mk l).toList = ("" : String).toList := by rw [h]
    simpa using this
  · intro h; rw [h]

theorem digitChar_isDigit {d : Nat} (h : d < 10) : (Nat.digitChar d).isDigit = true := by
  interval_cases d <;> decide

theorem digitChar_val {d : Nat} (h : d < 10) : (Nat.digitChar d).toNat - 48 = d := by
  interval_cases d <;> decide

theorem natDigits_ne_nil (n : Nat) : natDigits n ≠ [] := by
  rw [natDigits]; split <;> simp

theorem natDigits_all_digit (n : Nat) : (natDigits n).all Char.isDigit = true := by
  induction n using Nat.strong_induction_on with
  | _ n ih =>
    rw [natDigits]
    split
    · next h => simpa using digitChar_isDigit h
    · next h =>
      rw [List.all_append]
      refine Bool.and_eq_true _ _ |>.mpr ⟨ih _ (Nat.div_lt_self (by omega) (by omega)), ?_⟩
      simpa using digitChar_isDigit (Nat.mod_lt _ (by omega))

theorem parseDigits_append (l : List Char) (c : Char) :
    parseDigits (l ++ [c]) = parseDigits l * 10 + (c.toNat - 48) := by
  simp [parseDigits, List.foldl_append]

theorem parseDigits_natDigits (n : Nat) : parseDigits (natDigits n) = n := by
  induction n using Nat.strong_induction_on with
  | _ n ih =>
    rw [natDigits]
    split
    · next h =>
      have := digitChar_val h
      simp [parseDigits]
      omega
    · next h =>
      rw [parseDigits_append, ih _ (Nat.div_lt_self (by omega) (by omega)),
        digitChar_val (Nat.mod_lt _ (by omega))]
      omega

theorem intToCell_pos {v : Int} (h : 0 < v) : intToCell v = String.mk (natDigits v.toNat) := by
  unfold intToCell
  rw [if_neg (by omega)]

theorem allDigits_intToCell {v : Int} (h : 0 < v) : allDigits (intToCell v) = true := by
  rw [intToCell_pos h]
  simpa [allDigits, toList_mk] using natDigits_all_digit v.toNat

theorem intToCell_ne_empty {v : Int} (h : 0 < v) : intToCell v ≠ "" := by
  rw [intToCell_pos h, Ne, mk_eq_empty_iff]
  exact natDigits_ne_nil _

theorem parseDigits_intToCell {v : Int} (h : 0 < v) :
    Int.ofNat (parseDigits (intToCell v).toList) = v := by
  rw [intToCell_pos h, toList_mk, parseDigits_natDigits]
  exact_mod_cast Int.toNat_of_nonneg (le_of_lt h)

theorem jsJoin_nil : jsJoin ',' [] = "" := rfl

theorem jsSplit_jsJoin (ts : List String) (hne : ts ≠ [])
    (hfree : ∀ t ∈ ts, ',' ∉ t.toList) : jsSplit ',' (jsJoin ',' ts) = ts := by
  unfold jsSplit jsJoin
  rw [toList_mk, List.splitOn_intercalate]
  · rw [List.map_map]
    have hid : ((fun l => String.mk l) ∘ String.toList) = id := funext fun t => rfl
    rw [hid, List.map_id]
  · intro l hl
    obtain ⟨t, ht, rfl⟩ := List.mem_map.mp hl
    exact hfree t ht
  · simpa using hne

theorem jsJoin_ne_empty (ts : List String) (hne : ts ≠ []) (hmem : ∀ t ∈ ts, t ≠ "") :
    jsJoin ',' ts ≠ "" := by
  cases ts with
  | nil => exact absurd rfl hne
  | cons t rest =>
    intro h
    unfold jsJoin at h
    rw [mk_eq_empty_iff] at h
    have ht : t ≠ "" := hmem t (List.mem_cons_self t rest)
    have htl : t.toList ≠ [] := by
      intro h0
      exact ht (by rw [← mk_toList t, h0])
    cases rest with
    | nil =>
      rw [List.map_cons, List.map_nil, List.intercalate] at h
      simp at h
      exact htl h
    | cons r rs =>
      rw [List.map_cons, List.map_cons, List.intercalate] at h
      rw [List.intersperse_cons_cons] at h
      simp at h

theorem cityCell_roundtrip (c : City) : City.fromCell c.toCell = some c := by
  cases c <;> rfl

theorem ptCell_roundtrip (p : PropertyType) :
    PropertyType.fromCell p.toCell = some p := by
  cases p <;> rfl

theorem bhkCell_roundtrip (b : BHK) : BHK.fromCell b.toCell = some b := by
  cases b <;> rfl

theorem purposeCell_roundtrip (p : Purpose) : Purpose.fromCell p.toCell = some p := by
  cases p <;> rfl

theorem timelineCell_roundtrip (t : Timeline) : Timeline.fromCell t.toCell = some t := by
  cases t <;> rfl

theorem sourceCell_roundtrip (s : Source) : Source.fromCell s.toCell = some s := by
  cases s <;> rfl

theorem statusCell_roundtrip (s : Status) : Status.fromCell s.toCell = some s := by
  cases s <;> rfl

theorem cityCell_inj {a b : City} : a.toCell = b.toCell ↔ a = b := by
  cases a <;> cases b <;> simp [City.toCell]

theorem ptCell_inj {a b : PropertyType} : a.toCell = b.toCell ↔ a = b := by
  cases a <;> cases b <;> simp [PropertyType.toCell]

theorem bhkCell_inj {a b : BHK} : a.toCell = b.toCell ↔ a = b := by
  cases a <;> cases b <;> simp [BHK.toCell]

theorem bhkCellMap_inj {a b : Option BHK} :
    a.map BHK.toCell = b.map BHK.toCell ↔ a = b := by
  cases a <;> cases b <;> simp [bhkCell_inj]

theorem purposeCell_inj {a b : Purpose} : a.toCell = b.toCell ↔ a = b := by
  cases a <;> cases b <;> simp [Purpose.toCell]

theorem timelineCell_inj {a b : Timeline} : a.toCell = b.toCell ↔ a = b := by
  cases a <;> cases b <;> simp [Timeline.toCell]

theorem sourceCell_inj {a b : Source} : a.toCell = b.toCell ↔ a = b := by
  cases a <;> cases b <;> simp [Source.toCell]

theorem statusCell_inj {a b : Status} : a.toCell = b.toCell ↔ a = b := by
  cases a <;> cases b <;> simp [Status.toCell]

theorem mem_condEntry {x e : Change} {c : Bool} : x ∈ condEntry c e ↔ c = true ∧ x = e := by
  unfold condEntry
  split <;> simp_all

/-! ### Which paths and messages each issue block can carry -/

theorem formFullNameIssues_spec {s : String} {i : Issue} (h : i ∈ formFullNameIssues s) :
    i.path = ["fullName"] ∧
      (i.message = "Name must be at least 2 characters" ∨
        i.message = "Name must be at most 80 characters") := by
  unfold formFullNameIssues at h
  rcases List.mem_append.mp h with h | h <;> split at h <;> simp_all

theorem formEmailIssues_spec {e : Option String} {i : Issue} (h : i ∈ formEmailIssues e) :
    i.path = ["email"] := by
  unfold formEmailIssues at h
  cases e with
  | none => simp at h
  | some s => split at h <;> [skip; split at h] <;> simp_all

theorem formPhoneIssues_spec {s : String} {i : Issue} (h : i ∈ formPhoneIssues s) :
    i.path = ["phone"] := by
  unfold formPhoneIssues at h
  split at h <;> simp_all

theorem formBudgetIssues_spec {field : String} {b : Option Int} {i : Issue}
    (h : i ∈ formBudgetIssues field b) :
    i.path = [field] ∧ i.message = "Budget must be positive" := by
  unfold formBudgetIssues at h
  cases b with
  | none => simp at h
  | some v => split at h <;> simp_all

theorem formNotesIssues_spec {n : Option String} {i : Issue} (h : i ∈ formNotesIssues n) :
    i.path = ["notes"] := by
  unfold formNotesIssues at h
  cases n with
  | none => simp at h
  | some s => split at h <;> simp_all

theorem csvFullNameIssues_spec {s : Option String} {i : Issue} (h : i ∈ csvFullNameIssues s) :
    i.path = ["fullName"] := by
  unfold csvFullNameIssues at h
  cases s with
  | none => simp_all
  | some s =>
    rcases List.mem_append.mp h with h | h <;> split at h <;> simp_all

theorem csvEmailIssues_spec {e : Option String} {i : Issue} (h : i ∈ csvEmailIssues e) :
    i.path = ["email"] := by
  unfold csvEmailIssues at h
  cases e with
  | none => simp at h
  | some s => split at h <;> [skip; split at h] <;> simp_all

theorem csvPhoneIssues_spec {s : Option String} {i : Issue} (h : i ∈ csvPhoneIssues s) :
    i.path = ["phone"] := by
  unfold csvPhoneIssues at h
  cases s with
  | none => simp_all
  | some s => split at h <;> simp_all

theorem csvEnumIssues_spec {α : Type} {field : String} {f : String → Option α}
    {oc : Option String} {i : Issue} (h : i ∈ csvEnumIssues field f oc) :
    i.path = [field] := by
  unfold csvEnumIssues at h
  cases oc with
  | none => simp_all
  | some s => split at h <;> simp_all

theorem csvBhkIssues_spec {oc : Option String} {i : Issue} (h : i ∈ csvBhkIssues oc) :
    i.path = ["bhk"] := by
  unfold csvBhkIssues at h
  cases oc with
  | none => simp at h
  | some s => split at h <;> [skip; split at h] <;> simp_all

theorem csvBudgetIssues_spec {field : String} {oc : Option String} {i : Issue}
    (h : i ∈ csvBudgetIssues field oc) : i.path = [field] := by
  unfold csvBudgetIssues at h
  cases oc with
  | none => simp at h
  | some s => split at h <;> simp_all

theorem csvNotesIssues_spec {n : Option String} {i : Issue} (h : i ∈ csvNotesIssues n) :
    i.path = ["notes"] := by
  unfold csvNotesIssues at h
  cases n with
  | none => simp at h
  | some s => split at h <;> simp_all

theorem csvStatusIssues_spec {oc : Option String} {i : Issue} (h : i ∈ csvStatusIssues oc) :
    i.path = ["status"] := by
  unfold csvStatusIssues at h
  cases oc with
  | none => simp at h
  | some s => split at h <;> simp_all

/-! ## Claim theorems -/

/-- C1: `buyerSchema` checks every field and collects every failing field
without short-circuiting — each field constraint that fails contributes an
issue attributed to that field to the output, whatever the other fields do
— and on the spec's reject example `{fullName:"Jo", phone:"12345",
city:"Mohali", propertyType:"Apartment", purpose:"Buy", timeline:"0-3m",
source:"Call"}` the error list consists of exactly a `phone`-attributed
error and a `bhk`-attributed error. -/
theorem validate_collects_every_failing_field :
    (∀ c : FormCandidate, phonePat c.phone = false →
      ∃ i ∈ formIssues c, i.path = ["phone"]) ∧
    (∀ c : FormCandidate, c.fullName.length < 2 →
      ∃ i ∈ formIssues c, i.path = ["fullName"]) ∧
    (∀ c : FormCandidate, 80 < c.fullName.length →
      ∃ i ∈ formIssues c, i.path = ["fullName"]) ∧
    (∀ (c : FormCandidate) (e : String), c.email = some e → e ≠ "" →
      isValidEmail e = false → ∃ i ∈ formIssues c, i.path = ["email"]) ∧
    (∀ (c : FormCandidate) (v : Int), c.budgetMin = some v → v < 0 →
      ∃ i ∈ formIssues c, i.path = ["budgetMin"]) ∧
    (∀ (c : FormCandidate) (v : Int), c.budgetMax = some v → v < 0 →
      ∃ i ∈ formIssues c, i.path = ["budgetMax"]) ∧
    (∀ (c : FormCandidate) (n : String), c.notes = some n → 1000 < n.length →
      ∃ i ∈ formIssues c, i.path = ["notes"]) ∧
    validateForm rejectCandidate =
      .error [⟨["phone"], "Phone must be 10-15 digits"⟩, bhkRefineIssue] := by
  refine ⟨?_, ?_, ?_, ?_, ?_, ?_, ?_, ?_⟩
  · intro c h
    exact ⟨⟨["phone"], "Phone must be 10-15 digits"⟩,
      by simp [formIssues, formPhoneIssues, h], rfl⟩
  · intro c h
    exact ⟨⟨["fullName"], "Name must be at least 2 characters"⟩,
      by simp [formIssues, formFullNameIssues, h], rfl⟩
  · intro c h
    exact ⟨⟨["fullName"], "Name must be at most 80 characters"⟩,
      by simp [formIssues, formFullNameIssues, h, Nat.not_lt.mpr (by omega : 2 ≤ c.fullName.length)], rfl⟩
  · intro c e he hne hbad
    exact ⟨⟨["email"], "Invalid email format"⟩,
      by simp [formIssues, formEmailIssues, he, hne, hbad], rfl⟩
  · intro c v hv hneg
    exact ⟨⟨["budgetMin"], "Budget must be positive"⟩,
      by simp [formIssues, formBudgetIssues, hv, hneg], rfl⟩
  · intro c v hv hneg
    exact ⟨⟨["budgetMax"], "Budget must be positive"⟩,
      by simp [formIssues, formBudgetIssues, hv, hneg], rfl⟩
  · intro c n hn hlong
    exact ⟨⟨["notes"], "Notes must be at most 1000 characters"⟩,
      by simp [formIssues, formNotesIssues, hn, hlong], rfl⟩
  · decide

/-- Witness for C1: the reject example instantiates the universally
quantified parts — its phone fails the pattern and a phone error is
collected alongside the bhk one. -/
theorem validate_collects_every_failing_field_witness :
    ∃ i ∈ formIssues rejectCandidate, i.path = ["phone"] :=
  validate_collects_every_failing_field.1 rejectCandidate (by decide)

/-- C2 (code bug): the `EditBuyer` update is filtered by `id` only.  With
a stored `updated_at` of `2025-09-14T10:00:00Z` and an editor who last
observed `2025-09-14T09:00:00Z`, the submitted edit is applied and the
record silently renamed — no comparison against the observed value exists
anywhere on the write path (`editBuyerUpdate` does not even consume it),
so no `Stale` rejection can occur. -/
theorem editBuyer_overwrites_despite_stale_updatedAt :
    staleObservedUpdatedAt ≠ richStored.updated_at ∧
    editBuyerUpdate [richStored] richStored.id staleEditPayload "2025-09-14T11:00:00Z" =
      [applyWrite richStored (editBuyerDbWrite staleEditPayload) "2025-09-14T11:00:00Z"] ∧
    (editBuyerUpdate [richStored] richStored.id staleEditPayload
      "2025-09-14T11:00:00Z").map (fun r => r.full_name) = ["Renamed Lead"] := by
  refine ⟨by decide, ?_, by decide⟩
  simp [editBuyerUpdate]

/-- C3 counterexample: a candidate with `budgetMin = 5000000` and
`budgetMax = 0` has `budgetMax < budgetMin`, yet validates successfully
with no `budgetMax`-attributed error — `0` is falsy, so the refinement's
`data.budgetMin && data.budgetMax` guard skips the comparison. -/
theorem zero_budgetMax_skips_cross_check :
    zeroBudgetCandidate.budgetMin = some 5000000 ∧
    zeroBudgetCandidate.budgetMax = some 0 ∧ (0 : Int) < 5000000 ∧
    validateForm zeroBudgetCandidate = .ok (formBuild zeroBudgetCandidate) ∧
    ∀ i ∈ formIssues zeroBudgetCandidate, i.path ≠ ["budgetMax"] := by
  refine ⟨rfl, rfl, by decide, by decide, by decide⟩

/-- C3 amended: the cross-field budget error (attributed to `budgetMax`)
is emitted exactly when both budgets are present, both are nonzero, and
`budgetMax < budgetMin`; a present budget equal to `0` disables the
check. -/
theorem budget_cross_error_iff_truthy :
    ∀ c : FormCandidate,
      budgetRefineIssue ∈ formIssues c ↔
        ∃ mi ma : Int, c.budgetMin = some mi ∧ c.budgetMax = some ma ∧
          mi ≠ 0 ∧ ma ≠ 0 ∧ ma < mi := by
  intro c
  constructor
  · intro h
    unfold formIssues at h
    simp only [List.mem_append] at h
    rcases h with (((((((h | h) | h) | h) | h) | h) | h) | h)
    · exact absurd (formFullNameIssues_spec h).1 (by decide)
    · exact absurd (formEmailIssues_spec h) (by decide)
    · exact absurd (formPhoneIssues_spec h) (by decide)
    · exact absurd (formBudgetIssues_spec h).1 (by decide)
    · exact absurd (formBudgetIssues_spec h).2 (by decide)
    · exact absurd (formNotesIssues_spec h) (by decide)
    · split at h
      · exact absurd (List.mem_singleton.mp h) (by decide)
      · simp at h
    · split at h
      · next hcond =>
        unfold formBudgetRefineFails optIntTruthy at hcond
        cases hmi : c.budgetMin with
        | none => rw [hmi] at hcond; simp at hcond
        | some mi =>
          cases hma : c.budgetMax with
          | none => rw [hmi, hma] at hcond; simp at hcond
          | some ma =>
            rw [hmi, hma] at hcond
            simp only [Bool.and_eq_true, decide_eq_true_eq, Option.getD_some] at hcond
            exact ⟨mi, ma, rfl, rfl, by simpa using hcond.1.1, by simpa using hcond.1.2, hcond.2⟩
      · simp at h
  · rintro ⟨mi, ma, hmi, hma, hmi0, hma0, hlt⟩
    have hfail : formBudgetRefineFails c.budgetMin c.budgetMax = true := by
      simp [formBudgetRefineFails, optIntTruthy, hmi, hma, hmi0, hma0, hlt]
    simp [formIssues, hfail]

/-- C6 counterexample: in csv mode an Apartment row with an empty `bhk`
cell is rejected, but the single refinement issue carries the record-level
(empty) path — no error is attributed to the `bhk` field. -/
theorem csv_bhk_error_not_attributed :
    csvParse apartmentNoBhkRow = .error [⟨[], "Invalid input"⟩] ∧
    ∀ i ∈ csvIssues apartmentNoBhkRow, i.path ≠ ["bhk"] := by
  refine ⟨by decide, by decide⟩

/-- C6 amended: in form mode a missing BHK on Apartment/Villa yields a
`bhk`-attributed error, and Plot/Office/Retail candidates never get one;
in csv mode the same requirement produces an error attributed to the
whole record (empty path, the csv refinements pass no `path`), and no
well-formed `bhk` cell ever yields a `bhk`-attributed error. -/
theorem bhk_requirement_attribution :
    (∀ c : FormCandidate, (c.propertyType = .apartment ∨ c.propertyType = .villa) →
      c.bhk = none → bhkRefineIssue ∈ formIssues c) ∧
    (∀ c : FormCandidate,
      (c.propertyType = .plot ∨ c.propertyType = .office ∨ c.propertyType = .retail) →
      ∀ i ∈ formIssues c, i.path ≠ ["bhk"]) ∧
    (∀ r : CsvRow, csvAborts r = false →
      (csvPtValue r.propertyType = .apartment ∨ csvPtValue r.propertyType = .villa) →
      bhkCellTruthy (csvBhkValue r.bhk) = false →
      ∃ i ∈ csvIssues r, i.path = ([] : List String)) ∧
    (∀ r : CsvRow,
      (r.bhk = none ∨ r.bhk = some "" ∨ ∃ b : BHK, r.bhk = some (BHK.toCell b)) →
      ∀ i ∈ csvIssues r, i.path ≠ ["bhk"]) := by
  refine ⟨?_, ?_, ?_, ?_⟩
  · intro c hpt hbhk
    have hfail : formBhkRefineFails c = true := by
      rcases hpt with h | h <;> simp [formBhkRefineFails, h, hbhk]
    simp [formIssues, hfail, bhkRefineIssue]
  · intro c hpt i hi
    unfold formIssues at hi
    simp only [List.mem_append] at hi
    rcases hi with (((((((h | h) | h) | h) | h) | h) | h) | h)
    · rw [(formFullNameIssues_spec h).1]; decide
    · rw [formEmailIssues_spec h]; decide
    · rw [formPhoneIssues_spec h]; decide
    · rw [(formBudgetIssues_spec h).1]; decide
    · rw [(formBudgetIssues_spec h).1]; decide
    · rw [formNotesIssues_spec h]; decide
    · split at h
      · next hcond =>
        unfold formBhkRefineFails at hcond
        rcases hpt with hp | hp | hp <;> rw [hp] at hcond <;> simp at hcond
      · simp at h
    · split at h
      · rw [List.mem_singleton.mp h]; decide
      · simp at h
  · intro r hab hpt hbhk
    have hfail : csvBhkRefineFails r = true := by
      rcases hpt with h | h <;> simp [csvBhkRefineFails, h, hbhk]
    refine ⟨⟨[], "Invalid input"⟩, ?_, rfl⟩
    unfold csvIssues
    simp [List.mem_append, hab, hfail]
  · intro r hcell i hi
    have hbhkNil : csvBhkIssues r.bhk = [] := by
      rcases hcell with h | h | ⟨b, h⟩ <;> rw [h]
      · rfl
      · rfl
      · simp [csvBhkIssues, bhkCell_roundtrip]
    unfold csvIssues at hi
    simp only [List.mem_append] at hi
    rcases hi with ((((((((((((h | h) | h) | h) | h) | h) | h) | h) | h) | h) | h) | h) | h) | h
    · rw [csvFullNameIssues_spec h]; decide
    · rw [csvEmailIssues_spec h]; decide
    · rw [csvPhoneIssues_spec h]; decide
    · rw [csvEnumIssues_spec h]; decide
    · rw [csvEnumIssues_spec h]; decide
    · rw [hbhkNil] at h; simp at h
    · rw [csvEnumIssues_spec h]; decide
    · rw [csvBudgetIssues_spec h]; decide
    · rw [csvBudgetIssues_spec h]; decide
    · rw [csvEnumIssues_spec h]; decide
    · rw [csvEnumIssues_spec h]; decide
    · rw [csvNotesIssues_spec h]; decide
    · rw [csvStatusIssues_spec h]; decide
    · split at h
      · simp at h
      · simp only [List.mem_append] at h
        rcases h with h | h <;> split at h <;>
          first
            | (rw [List.mem_singleton.mp h]; decide)
            | simp at h

/-- Witness for C6 amended: a Villa form candidate without BHK gets the
`bhk`-attributed error, and the Apartment csv row with empty `bhk` cell
gets a record-level one. -/
theorem bhk_requirement_attribution_witness :
    bhkRefineIssue ∈ formIssues { baseCandidate with propertyType := .villa } ∧
    ∃ i ∈ csvIssues apartmentNoBhkRow, i.path = ([] : List String) :=
  ⟨bhk_requirement_attribution.1 _ (Or.inr rfl) rfl,
    bhk_requirement_attribution.2.2.1 apartmentNoBhkRow (by decide) (by decide) (by decide)⟩

/-- C7 counterexample: an otherwise valid row whose `status` cell is the
empty string is rejected with an invalid-enum error on `status` instead
of defaulting to `New` — `statusSchema.optional().default("New")` only
treats a missing value as absent, not `""`. -/
theorem empty_status_cell_rejected :
    emptyStatusRow.status = some "" ∧
    csvParse emptyStatusRow = .error [⟨["status"], "Invalid enum value"⟩] := by
  refine ⟨rfl, by decide⟩

/-- C7 amended: a missing `status` field defaults to `New`, but an empty
string in the `status` cell is rejected with a `status`-attributed
invalid-enum error. -/
theorem status_default_and_empty_cell :
    (∀ r : CsvRow, r.status = none → ∀ b : CsvBuyer, csvParse r = .ok b →
      b.status = .new) ∧
    (∀ r : CsvRow, r.status = some "" → ∃ i ∈ csvIssues r, i.path = ["status"]) := by
  constructor
  · intro r h b hok
    unfold csvParse at hok
    split at hok
    · injection hok with hb
      rw [← hb]
      simp [csvBuild, csvStatusValue, h]
    · simp at hok
  · intro r h
    refine ⟨⟨["status"], "Invalid enum value"⟩, ?_, rfl⟩
    have hst : csvStatusIssues r.status = [⟨["status"], "Invalid enum value"⟩] := by
      rw [h]; rfl
    unfold csvIssues
    simp [List.mem_append, hst]

/-- Witness for C7 amended: a row without a `status` column parses with
status `New`; the empty-cell row gets its `status`-attributed error. -/
theorem status_default_and_empty_cell_witness :
    (csvBuild missingStatusRow).status = Status.new ∧
    ∃ i ∈ csvIssues emptyStatusRow, i.path = ["status"] :=
  ⟨status_default_and_empty_cell.1 missingStatusRow rfl (csvBuild missingStatusRow) (by decide),
    status_default_and_empty_cell.2 emptyStatusRow rfl⟩

/-- C8: a parsed CSV with more than 200 data rows is rejected outright —
no row is validated, no per-row outcome exists — and in particular a
201-row import is rejected wholesale. -/
theorem batch_over_200_rejected :
    (∀ rows : List CsvRow, 200 < rows.length → importPipeline rows = .rejected) ∧
    importPipeline (List.replicate 201 baseRow) = .rejected := by
  constructor
  · intro rows h
    unfold importPipeline
    rw [if_pos h]
  · unfold importPipeline
    rw [if_pos (by rw [List.length_replicate]; omega)]

/-- Witness for C8: the 201-row batch falls under the universally
quantified rejection. -/
theorem batch_over_200_rejected_witness :
    importPipeline (List.replicate 201 emptyStatusRow) = .rejected :=
  batch_over_200_rejected.1 _ (by rw [List.length_replicate]; omega)

/-- C9: for every row that validates, the `tags` cell is split on `,`
with each fragment trimmed, an empty cell giving the empty sequence; in
particular `"urgent, family"` normalizes to `["urgent", "family"]`. -/
theorem csv_tags_split_trim :
    (∀ (r : CsvRow) (b : CsvBuyer) (s : String), r.tags = some s → csvParse r = .ok b →
      b.tags = some (if s = "" then [] else (jsSplit ',' s).map jsTrim)) ∧
    csvParse taggedRow = .ok (csvBuild taggedRow) ∧
    (csvBuild taggedRow).tags = some ["urgent", "family"] := by
  refine ⟨?_, by decide, by decide⟩
  intro r b s hs hok
  unfold csvParse at hok
  split at hok
  · injection hok with hb
    rw [← hb]
    simp [csvBuild, csvTagsValue, hs]
  · simp at hok

/-- Witness for C9: the `"urgent, family"` row instantiates the general
split-and-trim conjunct. -/
theorem csv_tags_split_trim_witness :
    (csvBuild taggedRow).tags =
      some (if ("urgent, family" : String) = "" then []
        else (jsSplit ',' "urgent, family").map jsTrim) :=
  csv_tags_split_trim.1 taggedRow (csvBuild taggedRow) "urgent, family" rfl (by decide)

/-- C10: on all three persistence paths (interactive create, interactive
edit, CSV import) a value of `0` in either budget and an empty-string
email/notes — and, on the CSV path, an empty `bhk` cell — are converted
to null by the `|| null` collapsing before the write. -/
theorem zero_and_empty_stored_as_null :
    (∀ d : Buyer, d.budgetMin = some 0 → (newBuyerDbWrite d).budget_min = none) ∧
    (∀ d : Buyer, d.budgetMax = some 0 → (newBuyerDbWrite d).budget_max = none) ∧
    (∀ d : Buyer, d.email = some "" → (newBuyerDbWrite d).email = none) ∧
    (∀ d : Buyer, d.notes = some "" → (newBuyerDbWrite d).notes = none) ∧
    (∀ d : Buyer, d.budgetMin = some 0 → (editBuyerDbWrite d).budget_min = none) ∧
    (∀ d : Buyer, d.budgetMax = some 0 → (editBuyerDbWrite d).budget_max = none) ∧
    (∀ d : Buyer, d.email = some "" → (editBuyerDbWrite d).email = none) ∧
    (∀ d : Buyer, d.notes = some "" → (editBuyerDbWrite d).notes = none) ∧
    (∀ b : CsvBuyer, b.budgetMin = some 0 → (csvDbWrite b).budget_min = none) ∧
    (∀ b : CsvBuyer, b.budgetMax = some 0 → (csvDbWrite b).budget_max = none) ∧
    (∀ b : CsvBuyer, b.email = some "" → (csvDbWrite b).email = none) ∧
    (∀ b : CsvBuyer, b.notes = some "" → (csvDbWrite b).notes = none) ∧
    (∀ b : CsvBuyer, b.bhk = .empty → (csvDbWrite b).bhk = none) := by
  refine ⟨?_, ?_, ?_, ?_, ?_, ?_, ?_, ?_, ?_, ?_, ?_, ?_, ?_⟩ <;> intro d h <;>
    simp [newBuyerDbWrite, editBuyerDbWrite, csvDbWrite, jsOrNullInt, jsOrNullStr,
      bhkCellOrNull, h]

/-- Witness for C10: a record with zero budgets and empty-string
email/notes is stored with nulls on each path. -/
theorem zero_and_empty_stored_as_null_witness :
    (newBuyerDbWrite zeroishBuyer).budget_min = none ∧
    (editBuyerDbWrite zeroishBuyer).email = none ∧
    (csvDbWrite zeroishCsvBuyer).budget_max = none ∧
    (csvDbWrite zeroishCsvBuyer).bhk = none :=
  ⟨zero_and_empty_stored_as_null.1 zeroishBuyer rfl,
    zero_and_empty_stored_as_null.2.2.2.2.2.2.1 zeroishBuyer rfl,
    zero_and_empty_stored_as_null.2.2.2.2.2.2.2.2.2.1 zeroishCsvBuyer rfl,
    zero_and_empty_stored_as_null.2.2.2.2.2.2.2.2.2.2.2.2 zeroishCsvBuyer rfl⟩

/-! ### Round-trip helpers -/

theorem BHK.toCell_ne_empty (b : BHK) : b.toCell ≠ "" := by
  cases b <;> decide

theorem map_jsTrim_self {ts : List String} (h : ∀ t ∈ ts, jsTrim t = t) :
    ts.map jsTrim = ts := by
  induction ts with
  | nil => rfl
  | cons t rest ih =>
    rw [List.map_cons, h t (List.mem_cons_self t rest),
      ih (fun x hx => h x (List.mem_cons_of_mem t hx))]

theorem csvTagsValue_join (ts : List String)
    (hm : ∀ t ∈ ts, t ≠ "" ∧ ',' ∉ t.toList ∧ jsTrim t = t) :
    csvTagsValue (some (jsJoin ',' ts)) = some ts := by
  by_cases hne : ts = []
  · subst hne; rfl
  · show some (if jsJoin ',' ts = "" then []
      else (jsSplit ',' (jsJoin ',' ts)).map jsTrim) = some ts
    rw [if_neg (jsJoin_ne_empty ts hne (fun t ht => (hm t ht).1)),
      jsSplit_jsJoin ts hne (fun t ht => (hm t ht).2.1),
      map_jsTrim_self (fun t ht => (hm t ht).2.2)]

theorem csvFullNameIssues_ok {s : String} (h2 : 2 ≤ s.length) (h80 : s.length ≤ 80) :
    csvFullNameIssues (some s) = [] := by
  simp only [csvFullNameIssues]
  rw [if_neg (by omega), if_neg (by omega)]
  rfl

theorem csvEmailIssues_ok {e : String} (hne : e ≠ "") (hv : isValidEmail e = true) :
    csvEmailIssues (some e) = [] := by
  simp only [csvEmailIssues]
  rw [if_neg hne, if_pos hv]

theorem csvPhoneIssues_ok {s : String} (h : phonePat s = true) :
    csvPhoneIssues (some s) = [] := by
  simp only [csvPhoneIssues]
  rw [if_pos h]

theorem csvEnumIssues_ok {α : Type} {field : String} {f : String → Option α} {s : String}
    {a : α} (h : f s = some a) : csvEnumIssues field f (some s) = [] := by
  simp only [csvEnumIssues]
  rw [if_pos (by rw [h]; rfl)]

theorem csvBhkIssues_ok_cell (b : BHK) : csvBhkIssues (some b.toCell) = [] := by
  simp only [csvBhkIssues]
  rw [if_neg (BHK.toCell_ne_empty b), if_pos (by rw [bhkCell_roundtrip]; rfl)]

theorem csvBudgetIssues_ok {field : String} {s : String} (h : allDigits s = true) :
    csvBudgetIssues field (some s) = [] := by
  simp only [csvBudgetIssues]
  rw [if_pos h]

theorem csvNotesIssues_ok {n : String} (h : n.length ≤ 1000) :
    csvNotesIssues (some n) = [] := by
  simp only [csvNotesIssues]
  rw [if_neg (by omega)]

theorem csvStatusIssues_ok (s : Status) : csvStatusIssues (some s.toCell) = [] := by
  simp only [csvStatusIssues]
  rw [if_pos (by rw [statusCell_roundtrip]; rfl)]

theorem csvBudgetValue_int {v : Int} (h : 0 < v) :
    csvBudgetValue (some (intToCell v)) = .num v := by
  simp only [csvBudgetValue]
  rw [if_pos (allDigits_intToCell h), if_neg (intToCell_ne_empty h), parseDigits_intToCell h]

theorem csvBhkValue_toCell (b : BHK) : csvBhkValue (some b.toCell) = .val b := by
  simp only [csvBhkValue]
  rw [if_neg (BHK.toCell_ne_empty b), bhkCell_roundtrip]

theorem csvPtValue_toCell (p : PropertyType) : csvPtValue (some p.toCell) = p := by
  simp only [csvPtValue]
  rw [ptCell_roundtrip]
  rfl

/-- C5 counterexample: `updated_at` is a field of the stored Lead outside
{id, ownerId, createdAt}, yet two rows differing only in `updated_at`
produce an empty diff and no history entry — the trigger never compares
`updated_at`. -/
theorem updatedAt_change_not_tracked :
    richStored.updated_at ≠ richStoredTouched.updated_at ∧
    trackBuyerChanges richStored richStoredTouched = [] ∧
    buyerHistoryEntry richStored richStoredTouched = none := by
  refine ⟨by decide, by decide, by decide⟩

/-- C5 amended: the diff contains the entry `(f, old, new)` for a field
`f` exactly when `f` is one of the fourteen mutable content fields — all
stored fields except `id`, `ownerId`, `createdAt` *and* `updatedAt` —
whose value differs between the two rows; every diff entry arises this
way; and the history row is written exactly when the diff is non-empty. -/
theorem diff_entries_iff_mutable_field_differs :
    ∀ o n : DbLead,
      (∀ mf : MutableField,
        ((mf.name, mf.val o, mf.val n) ∈ trackBuyerChanges o n ↔ mf.val o ≠ mf.val n)) ∧
      (∀ x ∈ trackBuyerChanges o n,
        ∃ mf : MutableField, x = (mf.name, mf.val o, mf.val n) ∧ mf.val o ≠ mf.val n) ∧
      (trackBuyerChanges o n = [] ↔ buyerHistoryEntry o n = none) := by
  intro o n
  refine ⟨?_, ?_, ?_⟩
  · intro mf
    cases mf <;>
      simp [trackBuyerChanges, List.mem_append, mem_condEntry, MutableField.name,
        MutableField.val, Prod.mk.injEq, cityCell_inj, ptCell_inj,
        bhkCellMap_inj, purposeCell_inj, timelineCell_inj, sourceCell_inj,
        statusCell_inj]
  · intro x hx
    simp only [trackBuyerChanges, List.mem_append, mem_condEntry] at hx
    rcases hx with ((((((((((((⟨hc, rfl⟩ | ⟨hc, rfl⟩) | ⟨hc, rfl⟩) | ⟨hc, rfl⟩) |
      ⟨hc, rfl⟩) | ⟨hc, rfl⟩) | ⟨hc, rfl⟩) | ⟨hc, rfl⟩) | ⟨hc, rfl⟩) | ⟨hc, rfl⟩) |
      ⟨hc, rfl⟩) | ⟨hc, rfl⟩) | ⟨hc, rfl⟩) | ⟨hc, rfl⟩
    · exact ⟨.fullName, rfl, by simpa [MutableField.val] using of_decide_eq_true hc⟩
    · exact ⟨.email, rfl, by simpa [MutableField.val] using of_decide_eq_true hc⟩
    · exact ⟨.phone, rfl, by simpa [MutableField.val] using of_decide_eq_true hc⟩
    · exact ⟨.city, rfl, by simpa [MutableField.val, cityCell_inj] using of_decide_eq_true hc⟩
    · exact ⟨.propertyType, rfl, by simpa [MutableField.val, ptCell_inj] using of_decide_eq_true hc⟩
    · exact ⟨.bhk, rfl, by simpa [MutableField.val, bhkCellMap_inj] using of_decide_eq_true hc⟩
    · exact ⟨.purpose, rfl, by simpa [MutableField.val, purposeCell_inj] using of_decide_eq_true hc⟩
    · exact ⟨.budgetMin, rfl, by simpa [MutableField.val] using of_decide_eq_true hc⟩
    · exact ⟨.budgetMax, rfl, by simpa [MutableField.val] using of_decide_eq_true hc⟩
    · exact ⟨.timeline, rfl, by simpa [MutableField.val, timelineCell_inj] using of_decide_eq_true hc⟩
    · exact ⟨.source, rfl, by simpa [MutableField.val, sourceCell_inj] using of_decide_eq_true hc⟩
    · exact ⟨.status, rfl, by simpa [MutableField.val, statusCell_inj] using of_decide_eq_true hc⟩
    · exact ⟨.notes, rfl, by simpa [MutableField.val] using of_decide_eq_true hc⟩
    · exact ⟨.tags, rfl, by simpa [MutableField.val] using of_decide_eq_true hc⟩
  · unfold buyerHistoryEntry
    split <;> simp_all

/-- Witness for C5 amended: a rename of `richStored` yields exactly the
`full_name` entry with the old and new values. -/
theorem diff_entries_iff_mutable_field_differs_witness :
    ("full_name", FieldVal.str (some "John Doe"), FieldVal.str (some "John A. Doe"))
      ∈ trackBuyerChanges richStored richStoredRenamed :=
  ((diff_entries_iff_mutable_field_differs richStored richStoredRenamed).1
    MutableField.fullName).mpr (by decide)

/-- C4 counterexample: a stored lead whose `budget_min` is the integer 0
exports that column as the empty cell (`row.budget_min || ''` — 0 is
falsy), so the re-imported record has `budgetMin` absent, not 0: the
round-trip is not the identity on such leads. -/
theorem export_zero_budget_breaks_roundtrip :
    zeroBudgetStored.budget_min = some 0 ∧
    csvParse (exportRow zeroBudgetStored) = .ok (csvBuild (exportRow zeroBudgetStored)) ∧
    (csvBuild (exportRow zeroBudgetStored)).budgetMin = none ∧
    (csvDbWrite (csvBuild (exportRow zeroBudgetStored))).budget_min ≠
      (canonicalOf zeroBudgetStored).budget_min := by
  refine ⟨rfl, by decide, by decide, by decide⟩

/-- C4 amended: for every well-formed stored lead — satisfying the table's
CHECK constraints, with positive (non-zero) budgets, no empty-string text
fields, and trimmed, non-empty, comma-free tags — exporting and
re-importing the row validates and reproduces every content column
exactly (ids and timestamps are regenerated, and the import stamps the
acting user as owner). -/
theorem export_import_roundtrip (r : DbLead) (h : wellFormedStoredB r = true) :
    csvParse (exportRow r) = .ok (csvBuild (exportRow r)) ∧
    csvDbWrite (csvBuild (exportRow r)) = canonicalOf r := by
  simp only [wellFormedStoredB, Bool.and_eq_true, decide_eq_true_eq] at h
  obtain ⟨⟨⟨⟨⟨⟨⟨⟨⟨h2, h80⟩, hph⟩, hem⟩, hno⟩, hbm⟩, hbM⟩, hrange⟩, hbhk⟩, htags⟩ := h
  have hfnC : csvFullNameIssues (exportRow r).fullName = [] := csvFullNameIssues_ok h2 h80
  have hemC : csvEmailIssues (exportRow r).email = [] := by
    simp only [exportRow]
    cases hE : r.email with
    | none => rfl
    | some e =>
      rw [hE] at hem
      simp only [Bool.and_eq_true, Bool.not_eq_true', decide_eq_false_iff_not] at hem
      exact csvEmailIssues_ok hem.1 hem.2
  have hphC : csvPhoneIssues (exportRow r).phone = [] := csvPhoneIssues_ok hph
  have hcityC : csvEnumIssues "city" City.fromCell (exportRow r).city = [] :=
    csvEnumIssues_ok (cityCell_roundtrip r.city)
  have hptC : csvEnumIssues "propertyType" PropertyType.fromCell
      (exportRow r).propertyType = [] :=
    csvEnumIssues_ok (ptCell_roundtrip r.property_type)
  have hpurC : csvEnumIssues "purpose" Purpose.fromCell (exportRow r).purpose = [] :=
    csvEnumIssues_ok (purposeCell_roundtrip r.purpose)
  have htlC : csvEnumIssues "timeline" Timeline.fromCell (exportRow r).timeline = [] :=
    csvEnumIssues_ok (timelineCell_roundtrip r.timeline)
  have hsrcC : csvEnumIssues "source" Source.fromCell (exportRow r).source = [] :=
    csvEnumIssues_ok (sourceCell_roundtrip r.source)
  have hstC : csvStatusIssues (exportRow r).status = [] := csvStatusIssues_ok r.status
  have hbhkC : csvBhkIssues (exportRow r).bhk = [] := by
    simp only [exportRow]
    cases hB : r.bhk with
    | none => rfl
    | some b => exact csvBhkIssues_ok_cell b
  have hbmC : csvBudgetIssues "budgetMin" (exportRow r).budgetMin = [] := by
    simp only [exportRow]
    cases hB : r.budget_min with
    | none => rfl
    | some v =>
      rw [hB] at hbm
      simp only [decide_eq_true_eq] at hbm
      show csvBudgetIssues "budgetMin" (some (if v = 0 then "" else intToCell v)) = []
      rw [if_neg (by omega : ¬v = 0)]
      exact csvBudgetIssues_ok (allDigits_intToCell hbm)
  have hbMC : csvBudgetIssues "budgetMax" (exportRow r).budgetMax = [] := by
    simp only [exportRow]
    cases hB : r.budget_max with
    | none => rfl
    | some v =>
      rw [hB] at hbM
      simp only [decide_eq_true_eq] at hbM
      show csvBudgetIssues "budgetMax" (some (if v = 0 then "" else intToCell v)) = []
      rw [if_neg (by omega : ¬v = 0)]
      exact csvBudgetIssues_ok (allDigits_intToCell hbM)
  have hnoC : csvNotesIssues (exportRow r).notes = [] := by
    simp only [exportRow]
    cases hN : r.notes with
    | none => rfl
    | some n =>
      rw [hN] at hno
      simp only [Bool.and_eq_true, Bool.not_eq_true', decide_eq_false_iff_not,
        decide_eq_true_eq] at hno
      exact csvNotesIssues_ok hno.2
  have habort : csvAborts (exportRow r) = false := by
    unfold csvAborts
    rw [hcityC, hptC, hpurC, htlC, hsrcC, hbhkC, hstC]
    rfl
  have hptV : csvPtValue (exportRow r).propertyType = r.property_type :=
    csvPtValue_toCell r.property_type
  have hbhkRF : csvBhkRefineFails (exportRow r) = false := by
    unfold csvBhkRefineFails
    rw [hptV]
    cases hB : r.bhk with
    | some b =>
      have hv : csvBhkValue (exportRow r).bhk = .val b := by
        simp only [exportRow]
        rw [hB]
        exact csvBhkValue_toCell b
      rw [hv]
      simp [bhkCellTruthy]
    | none =>
      rw [hB] at hbhk
      simp only [Option.isSome_none, Bool.or_false, Bool.not_eq_true'] at hbhk
      rw [hbhk]
      rfl
  have hbmV : csvBudgetValue (exportRow r).budgetMin =
      (match r.budget_min with | none => CsvNum.undef | some v => CsvNum.num v) := by
    simp only [exportRow]
    cases hB : r.budget_min with
    | none => rfl
    | some v =>
      rw [hB] at hbm
      simp only [decide_eq_true_eq] at hbm
      show csvBudgetValue (some (if v = 0 then "" else intToCell v)) = CsvNum.num v
      rw [if_neg (by omega : ¬v = 0)]
      exact csvBudgetValue_int hbm
  have hbMV : csvBudgetValue (exportRow r).budgetMax =
      (match r.budget_max with | none => CsvNum.undef | some v => CsvNum.num v) := by
    simp only [exportRow]
    cases hB : r.budget_max with
    | none => rfl
    | some v =>
      rw [hB] at hbM
      simp only [decide_eq_true_eq] at hbM
      show csvBudgetValue (some (if v = 0 then "" else intToCell v)) = CsvNum.num v
      rw [if_neg (by omega : ¬v = 0)]
      exact csvBudgetValue_int hbM
  have hbudRF : csvBudgetRefineFails (exportRow r) = false := by
    unfold csvBudgetRefineFails
    rw [hbmV, hbMV]
    cases hB : r.budget_min with
    | none => rfl
    | some a =>
      cases hB2 : r.budget_max with
      | none => simp [csvNumTruthy]
      | some b =>
        rw [hB, hB2] at hrange
        simp only [decide_eq_true_eq] at hrange
        have hlt : jsLtCsv (.num b) (.num a) = false := by
          simp only [jsLtCsv, decide_eq_false_iff_not]
          omega
        rw [hlt]
        simp
  have hnil : csvIssues (exportRow r) = [] := by
    unfold csvIssues
    rw [hfnC, hemC, hphC, hcityC, hptC, hbhkC, hpurC, hbmC, hbMC, htlC, hsrcC, hnoC,
      hstC, habort, hbhkRF, hbudRF]
    rfl
  refine ⟨by unfold csvParse; rw [if_pos hnil], ?_⟩
  have hemW : jsOrNullStr (csvBuild (exportRow r)).email = r.email := by
    show jsOrNullStr (exportRow r).email = r.email
    simp only [exportRow]
    cases hE : r.email with
    | none => rfl
    | some e =>
      rw [hE] at hem
      simp only [Bool.and_eq_true, Bool.not_eq_true', decide_eq_false_iff_not] at hem
      simp [jsOrNullStr, hem.1]
  have hnoW : jsOrNullStr (csvBuild (exportRow r)).notes = r.notes := by
    show jsOrNullStr (exportRow r).notes = r.notes
    simp only [exportRow]
    cases hN : r.notes with
    | none => rfl
    | some n =>
      rw [hN] at hno
      simp only [Bool.and_eq_true, Bool.not_eq_true', decide_eq_false_iff_not,
        decide_eq_true_eq] at hno
      simp [jsOrNullStr, hno.1]
  have hbmW : jsOrNullInt (csvNumToOptInt (csvBudgetValue (exportRow r).budgetMin)) =
      r.budget_min := by
    rw [hbmV]
    cases hB : r.budget_min with
    | none => rfl
    | some v =>
      rw [hB] at hbm
      simp only [decide_eq_true_eq] at hbm
      show jsOrNullInt (some v) = some v
      simp only [jsOrNullInt]
      rw [if_neg (by omega : ¬v = 0)]
  have hbMW : jsOrNullInt (csvNumToOptInt (csvBudgetValue (exportRow r).budgetMax)) =
      r.budget_max := by
    rw [hbMV]
    cases hB : r.budget_max with
    | none => rfl
    | some v =>
      rw [hB] at hbM
      simp only [decide_eq_true_eq] at hbM
      show jsOrNullInt (some v) = some v
      simp only [jsOrNullInt]
      rw [if_neg (by omega : ¬v = 0)]
  have hbhkW : bhkCellOrNull (csvBuild (exportRow r)).bhk = r.bhk := by
    show bhkCellOrNull (csvBhkValue (exportRow r).bhk) = r.bhk
    simp only [exportRow]
    cases hB : r.bhk with
    | none => rfl
    | some b =>
      show bhkCellOrNull (csvBhkValue (some b.toCell)) = some b
      rw [csvBhkValue_toCell b]
      rfl
  have htagsW : ((csvBuild (exportRow r)).tags).getD [] = r.tags.getD [] := by
    have hm : ∀ t ∈ r.tags.getD [], t ≠ "" ∧ ',' ∉ t.toList ∧ jsTrim t = t := by
      intro t ht
      cases hT : r.tags with
      | none => rw [hT] at ht; simp at ht
      | some ts =>
        rw [hT] at htags ht
        simp only [Option.getD_some] at ht
        simp only [List.all_eq_true] at htags
        have hthis := htags t ht
        simp only [Bool.and_eq_true, Bool.not_eq_true', decide_eq_false_iff_not,
          decide_eq_true_eq] at hthis
        exact ⟨hthis.1.1, hthis.1.2, hthis.2⟩
    show (csvTagsValue (exportRow r).tags).getD [] = r.tags.getD []
    simp only [exportRow]
    rw [csvTagsValue_join _ hm]
    rfl
  have hcityV : (csvBuild (exportRow r)).city = r.city := by
    show (City.fromCell ((exportRow r).city.getD "")).getD City.other = r.city
    simp only [exportRow, Option.getD_some, cityCell_roundtrip]
  have hpurV : (csvBuild (exportRow r)).purpose = r.purpose := by
    show (Purpose.fromCell ((exportRow r).purpose.getD "")).getD Purpose.buy = r.purpose
    simp only [exportRow, Option.getD_some, purposeCell_roundtrip]
  have htlV : (csvBuild (exportRow r)).timeline = r.timeline := by
    show (Timeline.fromCell ((exportRow r).timeline.getD "")).getD
      Timeline.exploring = r.timeline
    simp only [exportRow, Option.getD_some, timelineCell_roundtrip]
  have hsrcV : (csvBuild (exportRow r)).source = r.source := by
    show (Source.fromCell ((exportRow r).source.getD "")).getD Source.other = r.source
    simp only [exportRow, Option.getD_some, sourceCell_roundtrip]
  have hstV : (csvBuild (exportRow r)).status = r.status := by
    show csvStatusValue (exportRow r).status = r.status
    simp only [exportRow, csvStatusValue, statusCell_roundtrip, Option.getD_some]
  show csvDbWrite (csvBuild (exportRow r)) = canonicalOf r
  simp only [csvDbWrite, canonicalOf, DbWrite.mk.injEq]
  exact ⟨rfl, hemW, rfl, hcityV, hptV, hbhkW, hpurV, hbmW, hbMW, htlV, hsrcV, hstV,
    hnoW, htagsW⟩

/-- Witness for C4 amended: the fully populated `richStored` lead is
well-formed and survives the export/import round-trip column for
column. -/
theorem export_import_roundtrip_witness :
    csvParse (exportRow richStored) = .ok (csvBuild (exportRow richStored)) ∧
    csvDbWrite (csvBuild (exportRow richStored)) = canonicalOf richStored :=
  export_import_roundtrip richStored (by decide)

end ESahayak
